import Mathlib

/-
Verification of the chat-dispatch-and-render loop of src/aiadvanced.py.

The development shallowly embeds the pieces of the program that the
specification talks about:
  * string helpers mirroring the Python substring / strip / lower operations,
  * load_config and the QColor construction it wraps,
  * GeminiWorker.run, split into the guard checks, the call-shape decision
    (single-turn vs multi-turn), the response interpretation and the
    exception classification,
  * the ChatWindow slots send_message, handle_response, handle_error,
    show_status_message, hide_specific_status_message, hide_status_message
    and update_status_based_on_config,
  * a step relation over window states tying those slots together.
-/

/-- Bool test that pat is a prefix of l, elementwise. -/
def isPrefixList (pat l : List Char) : Bool :=
  match pat, l with
  | [], _ => true
  | _ :: _, [] => false
  | a :: ps, b :: ls => a == b && isPrefixList ps ls

/-- Bool test that pat occurs contiguously inside l. -/
def isInfixList (pat : List Char) : List Char → Bool
  | [] => pat.isEmpty
  | b :: t => isPrefixList pat (b :: t) || isInfixList pat t

/-- Embeds the Python membership test `pat in s` on strings. -/
def containsSubstr (s pat : String) : Bool := isInfixList pat.data s.data

/-- Embeds the Python `s.lower()` (ASCII letters, as used by the error markers). -/
def toLowerStr (s : String) : String := ⟨s.data.map Char.toLower⟩

/-- Embeds the Python `s.strip()`: drop leading and trailing whitespace. -/
def pyStrip (s : String) : String :=
  ⟨((s.data.dropWhile Char.isWhitespace).reverse.dropWhile Char.isWhitespace).reverse⟩

/-- One chat turn, the dict `\x7b'role': r, 'parts': [m]\x7d` kept in
`ChatWindow.chat_history`; the role strings used by the program are
"user" and "model". -/
structure Turn where
  role : String
  parts : List String
deriving DecidableEq

/-- The persisted configuration record (src lines 25-29). -/
structure Config where
  api_key : String
  theme : String
  accent_color : String
deriving DecidableEq

/-- DEFAULT_CONFIG of src lines 25-29. -/
def DEFAULT_CONFIG : Config := ⟨"", "light", "#3498db"⟩

/-- A parsed configuration file: the JSON object with any subset of the three
keys present (src line 39, `json.load`). A file that is missing or fails to
decode is represented upstream by `none`. -/
structure StoredConfig where
  api_key? : Option String
  theme? : Option String
  accent_color? : Option String
deriving DecidableEq

/-- Result of constructing a QColor: just its validity flag. -/
structure QColorV where
  isValid : Bool
deriving DecidableEq

/-- Hex color-name validity as Qt defines it for strings starting with a hash:
a hash followed by 3, 6, 8, 9 or 12 hex digits. Named SVG colors are not
needed by this development and are omitted. -/
def isValidColorName (s : String) : Bool :=
  isPrefixList ['#'] s.data &&
    (s.length == 4 || s.length == 7 || s.length == 9 || s.length == 10 || s.length == 13) &&
    (s.data.drop 1).all fun c => c.isDigit || ("abcdefABCDEF".data.contains c)

/-- Embeds the PySide6 expression `QColor(s)` for a string argument s.
Constructing a QColor from a string NEVER raises: an unrecognised name
merely yields an invalid color (the program itself relies on this in
apply_styles, src lines 536-545, where it checks `isValid()` after
constructing). Hence the result is always `.ok`; the error case of the
type is kept because the surrounding Python wraps the construction in
try/except. -/
def mkQColor (s : String) : Except Unit QColorV := .ok ⟨isValidColorName s⟩

/-- Embeds load_config (src lines 33-52) on an already-parsed file.
`none` stands for a missing file or a json.JSONDecodeError, both of which
return DEFAULT_CONFIG.copy(). Otherwise the defaults are updated with the
stored keys, and the accent color is passed through `try: QColor(...)
except: revert to default`. -/
def load_config (file : Option StoredConfig) : Config :=
  match file with
  | none => DEFAULT_CONFIG
  | some d =>
    let merged : Config :=
      ⟨d.api_key?.getD DEFAULT_CONFIG.api_key,
       d.theme?.getD DEFAULT_CONFIG.theme,
       d.accent_color?.getD DEFAULT_CONFIG.accent_color⟩
    match mkQColor merged.accent_color with
    | .ok _ => merged
    | .error _ => { merged with accent_color := DEFAULT_CONFIG.accent_color }

/-- The two signals a GeminiWorker can emit (src lines 69-70). -/
inductive WorkerEvent where
  | response (text : String)
  | error (msg : String)
deriving DecidableEq

/-- The shape of the service call GeminiWorker.run issues (src lines 92-96):
`generate_content(message)` when the formatted history is empty, else
`start_chat(history=...)` followed by `send_message(message)`. In this typed
model every Turn carries both a role and parts, so the key-presence filter of
src line 90 keeps the whole list. -/
inductive ApiCall where
  | singleTurn (message : String)
  | multiTurn (history : List Turn) (message : String)
deriving DecidableEq

/-- The call-shape decision of GeminiWorker.run, src lines 92-96. -/
def workerCall (history : List Turn) (message : String) : ApiCall :=
  if history.isEmpty then .singleTurn message else .multiTurn history message

/-- One part of a candidate content: `hasText` embeds `hasattr(part, 'text')`. -/
structure RPart where
  hasText : Bool
  text : String
deriving DecidableEq

/-- One response candidate; `parts` embeds `candidate.content.parts`. -/
structure Candidate where
  parts : List RPart
deriving DecidableEq

/-- A non-exceptional service response. `textVal = none` embeds `.text`
raising ValueError; `candidates = []` covers both a missing candidates
attribute and an empty list; `blockReason = none` covers both a missing
prompt_feedback attribute and a falsy block_reason. -/
structure Response where
  textVal : Option String
  candidates : List Candidate
  blockReason : Option String
deriving DecidableEq

/-- The concatenation src line 108 builds:
`"".join(part.text for part in candidate_parts if hasattr(part, 'text'))`. -/
def candidatePartsText (ps : List RPart) : String :=
  String.join ((ps.filter fun p => p.hasText).map fun p => p.text)

/-- The fall-through tail of the response interpretation (src lines 115-122):
the block-reason check, then the final empty-response report (reached with
`response_text` still empty). -/
def blockOrEmpty (r : Response) : WorkerEvent :=
  match r.blockReason with
  | some reason => .error ("Request blocked: " ++ reason ++ ". Please modify your prompt.")
  | none => .error "Received an empty or unexpected response format from the API."

/-- Embeds the response interpretation of GeminiWorker.run, src lines 98-122.
`none` stands for a falsy response object, which skips every check and ends
at the final empty-response report. -/
def interpretResponse (r? : Option Response) : WorkerEvent :=
  match r? with
  | none => .error "Received an empty or unexpected response format from the API."
  | some r =>
    match r.textVal with
    | some t => .response t
    | none =>
      match r.candidates with
      | [] => blockOrEmpty r
      | c :: _ =>
        match c.parts with
        | [] => blockOrEmpty r
        | _ :: _ =>
          let response_text := candidatePartsText c.parts
          if response_text == "" then .error "API response candidate parts contained no text."
          else .response response_text

/-- Embeds the exception classifier of GeminiWorker.run, src lines 124-138,
mapping `str(e)` to the emitted error message. It is a total function: every
exception is turned into an emitted message, none propagates. -/
def classifyException (e : String) : String :=
  if containsSubstr e "API key not valid" || containsSubstr e "API_KEY_INVALID" then
    "API Error: Invalid API Key. Please check it in Settings."
  else if containsSubstr (toLowerStr e) "quota" || containsSubstr e "RESOURCE_EXHAUSTED" then
    "API Error: Quota exceeded. Please check your Google AI usage limits."
  else if containsSubstr e "Deadline Exceeded" then
    "API Error: Request timed out. Please try again."
  else if containsSubstr e "PermissionDenied" || containsSubstr (toLowerStr e) "permission denied" then
    "API Error: Permission denied. Check API key permissions."
  else if containsSubstr e "NotFound" && containsSubstr e "models/" then
    "API Error: Model not found. Check the model name."
  else
    "API Error: " ++ e

/-- Outcome of the underlying service call: it either raised an exception
with message `str(e)`, or returned a (possibly falsy) response object. -/
inductive CallOutcome where
  | raised (e : String)
  | returned (r? : Option Response)
deriving DecidableEq

/-- Embeds GeminiWorker.run, src lines 78-138: the two guard checks, then
the interpretation of whatever the service call produced. The `outcome`
argument is consumed only past both guards, so a guard failure reports
without any network interaction. -/
def workerRun (googleAvailable : Bool) (api_key : String) (outcome : CallOutcome) : WorkerEvent :=
  if googleAvailable = false then .error "Google AI library not installed."
  else if api_key = "" then .error "API Key not set. Please configure it in Settings."
  else
    match outcome with
    | .raised e => .error (classifyException e)
    | .returned r? => interpretResponse r?

/-- The status label: its text, its isError property, and visibility. -/
structure StatusState where
  text : String
  isError : Bool
  visible : Bool
deriving DecidableEq

/-- A pending QTimer.singleShot scheduled to hide a specific message. -/
structure TimerReq where
  delay : Nat
  message : String
deriving DecidableEq

/-- Embeds ChatWindow.show_status_message (src lines 475-482): the label is
set and shown, and a hide timer is scheduled unless the notification is
persistent (duration 0, or the text carries one of the two persistence
markers). -/
def show_status_message (_old : StatusState) (message : String) (error : Bool)
    (duration : Nat) : StatusState × Option TimerReq :=
  let is_persistent := duration == 0 || containsSubstr message "API Key not set" ||
    containsSubstr message "google-generativeai not found"
  (⟨message, error, true⟩, if is_persistent then none else some ⟨duration, message⟩)

/-- Embeds ChatWindow.hide_specific_status_message (src lines 484-489): the
fired timer callback. -/
def hide_specific_status_message (ss : StatusState) (message_to_hide : String) : StatusState :=
  if ss.visible && ss.text == message_to_hide then
    let is_persistent_error := ss.isError && (containsSubstr message_to_hide "API Key not set" ||
      containsSubstr message_to_hide "google-generativeai not found")
    if is_persistent_error then ss else { ss with visible := false }
  else ss

/-- Embeds ChatWindow.hide_status_message (src lines 491-496). -/
def hide_status_message (ss : StatusState) : StatusState :=
  let is_persistent := ss.isError && (containsSubstr ss.text "API Key not set" ||
    containsSubstr ss.text "google-generativeai not found")
  if is_persistent then ss else { ss with visible := false }

/-- Embeds ChatWindow.update_status_based_on_config (src lines 513-517). -/
def update_status_based_on_config (googleAvailable : Bool) (cfg : Config)
    (ss : StatusState) : StatusState × Option TimerReq :=
  if googleAvailable = false then
    show_status_message ss "Warning: google-generativeai not found..." true 0
  else if cfg.api_key = "" then
    show_status_message ss "API Key not set..." true 0
  else (hide_status_message ss, none)

/-- The mutable window state the claims are about: the transcript and the
status label. -/
structure ChatWindowState where
  chat_history : List Turn
  status : StatusState
deriving DecidableEq

/-- The constructor arguments of the GeminiWorker started by send_message
(src line 449). -/
structure WorkerArgs where
  api_key : String
  message : String
  chat_history : List Turn
deriving DecidableEq

/-- Embeds ChatWindow.send_message (src lines 437-453). Returns the updated
window state, the worker started (if any), and the hide timer scheduled by
the show_status_message call it makes (if any). Note the order of effects in
the dispatch branch: the User turn is appended to chat_history BEFORE the
worker is constructed with `list(self.chat_history)`, so the history handed
to the worker already ends with the current message. -/
def send_message (cfg : Config) (googleAvailable : Bool) (inputText : String)
    (st : ChatWindowState) : ChatWindowState × Option WorkerArgs × Option TimerReq :=
  let user_message := pyStrip inputText
  if user_message = "" then (st, none, none)
  else if cfg.api_key = "" then
    let shown := show_status_message st.status "Error: API Key not set..." true 5000
    ({ st with status := shown.1 }, none, shown.2)
  else if googleAvailable = false then
    let shown := show_status_message st.status "Error: Google AI library not installed." true 5000
    ({ st with status := shown.1 }, none, shown.2)
  else
    let shown := show_status_message st.status "AI is thinking..." false 5000
    let hist := st.chat_history ++ [⟨"user", [user_message]⟩]
    (⟨hist, shown.1⟩, some ⟨cfg.api_key, user_message, hist⟩, shown.2)

/-- Embeds ChatWindow.handle_response (src lines 455-459): append one Model
turn with the returned text and hide the non-persistent status message. -/
def handle_response (st : ChatWindowState) (ai_message : String) : ChatWindowState :=
  ⟨st.chat_history ++ [⟨"model", [ai_message]⟩], hide_status_message st.status⟩

/-- Bool test that the last turn of the transcript has role "user"; embeds
the Python condition `self.chat_history and self.chat_history[-1]['role'] == 'user'`
of src line 465 (false on the empty transcript). -/
def lastIsUser : List Turn → Bool
  | [] => false
  | [t] => t.role == "user"
  | _ :: t :: ts => lastIsUser (t :: ts)

/-- Embeds ChatWindow.handle_error (src lines 461-466): show the error
notification, then pop the last turn if it is a User turn. -/
def handle_error (st : ChatWindowState) (error_message : String) :
    ChatWindowState × Option TimerReq :=
  let shown := show_status_message st.status error_message true 5000
  let hist := if lastIsUser st.chat_history then st.chat_history.dropLast
    else st.chat_history
  (⟨hist, shown.1⟩, shown.2)

/-- A window state together with the in-flight flag: `inFlight = true` while
a worker is outstanding, during which the input box and send button are
disabled (src line 447) and re-enabled by on_worker_finished (src line 470). -/
structure SysState where
  win : ChatWindowState
  inFlight : Bool
deriving DecidableEq

/-- The UI events that touch the transcript: a send attempt (possible only
while no dispatch is outstanding), delivery of a worker result (success or
failure), and the wholesale reset performed by on_settings_changed
(src lines 504-511). -/
inductive UiStep : SysState → SysState → Prop
  | send (cfg : Config) (googleAvailable : Bool) (inputText : String) (s : SysState)
      (hfree : s.inFlight = false) :
      UiStep s ⟨(send_message cfg googleAvailable inputText s.win).1,
        ((send_message cfg googleAvailable inputText s.win).2.1).isSome⟩
  | success (text : String) (s : SysState) (hbusy : s.inFlight = true) :
      UiStep s ⟨handle_response s.win text, false⟩
  | failure (msg : String) (s : SysState) (hbusy : s.inFlight = true) :
      UiStep s ⟨(handle_error s.win msg).1, false⟩
  | reset (cfg : Config) (googleAvailable : Bool) (s : SysState) :
      UiStep s ⟨⟨[], (update_status_based_on_config googleAvailable cfg s.win.status).1⟩,
        s.inFlight⟩

/-- States reachable from window construction (src lines 378-379: empty
transcript, hidden label, then update_status_based_on_config). -/
inductive Reachable : SysState → Prop
  | init (cfg : Config) (googleAvailable : Bool) :
      Reachable ⟨⟨[], (update_status_based_on_config googleAvailable cfg ⟨"", false, false⟩).1⟩,
        false⟩
  | step {s s' : SysState} : Reachable s → UiStep s s' → Reachable s'

/-- Bool test that the transcript has no two consecutive User turns. -/
def noConsecUser : List Turn → Bool
  | t₁ :: t₂ :: ts => !(t₁.role == "user" && t₂.role == "user") && noConsecUser (t₂ :: ts)
  | _ => true

/-- The error taxonomy of the exception-classification claim. -/
inductive ErrorKind where
  | invalidCredential
  | quotaExceeded
  | timeout
  | permissionDenied
  | modelNotFound
  | unknown (message : String)
deriving DecidableEq

/-- Written from the words of claim C7: classify the exception text by
substring markers, in the stated precedence. -/
def specClassifyException (e : String) : ErrorKind :=
  if containsSubstr e "API key not valid" || containsSubstr e "API_KEY_INVALID" then
    .invalidCredential
  else if containsSubstr (toLowerStr e) "quota" || containsSubstr e "RESOURCE_EXHAUSTED" then
    .quotaExceeded
  else if containsSubstr e "Deadline Exceeded" then
    .timeout
  else if containsSubstr e "PermissionDenied" || containsSubstr (toLowerStr e) "permission denied" then
    .permissionDenied
  else if containsSubstr e "NotFound" && containsSubstr e "models/" then
    .modelNotFound
  else
    .unknown e

/-- The message the worker emits for each taxonomy member. -/
def kindMessage : ErrorKind → String
  | .invalidCredential => "API Error: Invalid API Key. Please check it in Settings."
  | .quotaExceeded => "API Error: Quota exceeded. Please check your Google AI usage limits."
  | .timeout => "API Error: Request timed out. Please try again."
  | .permissionDenied => "API Error: Permission denied. Check API key permissions."
  | .modelNotFound => "API Error: Model not found. Check the model name."
  | .unknown m => "API Error: " ++ m

/-- The outcome taxonomy of the response-interpretation claim. -/
inductive ResponseKind where
  | success (text : String)
  | blocked (reason : String)
  | emptyResponse
deriving DecidableEq

/-- The direct text value of a response, if any (step (a) of claim C6). -/
def directText (r? : Option Response) : Option String := r?.bind fun r => r.textVal

/-- The content parts of the first candidate, if any (step (b) of claim C6). -/
def firstCandidateParts (r? : Option Response) : List RPart :=
  match r? with
  | none => []
  | some r =>
    match r.candidates with
    | [] => []
    | c :: _ => c.parts

/-- The block reason carried by a response, if any (step (c) of claim C6). -/
def blockReasonOf (r? : Option Response) : Option String := r?.bind fun r => r.blockReason

/-- Written from the words of claim C6, literally: (a) a direct text value
gives Success; (b) otherwise candidate content parts give Success with the
concatenation of any text fragments found; (c) otherwise a block reason
gives Blocked; (d) otherwise EmptyResponse. -/
def specInterpretC6 (r? : Option Response) : ResponseKind :=
  match directText r? with
  | some t => .success t
  | none =>
    if firstCandidateParts r? ≠ [] then .success (candidatePartsText (firstCandidateParts r?))
    else
      match blockReasonOf r? with
      | some reason => .blocked reason
      | none => .emptyResponse

/-- Written from the words of the amended claim C6: as the original, except
that in step (b), when candidate parts are present but their text
concatenation is empty, the dispatcher reports the empty-parts failure
immediately, without consulting the block reason. Each outcome is rendered
as the event the worker emits. -/
def specInterpretAmendedC6 (r? : Option Response) : WorkerEvent :=
  match directText r? with
  | some t => .response t
  | none =>
    if firstCandidateParts r? ≠ [] then
      if candidatePartsText (firstCandidateParts r?) == "" then
        .error "API response candidate parts contained no text."
      else .response (candidatePartsText (firstCandidateParts r?))
    else
      match blockReasonOf r? with
      | some reason => .error ("Request blocked: " ++ reason ++ ". Please modify your prompt.")
      | none => .error "Received an empty or unexpected response format from the API."

/-- A fresh, hidden status label (src lines 370-374). -/
def ss0 : StatusState := ⟨"", false, false⟩

/-- A window state with an empty transcript and a fresh label. -/
def win0 : ChatWindowState := ⟨[], ss0⟩

/-- A configuration with a credential set. -/
def cfg0 : Config := ⟨"k", "light", "#3498db"⟩

/-- The configuration of the end-to-end example of the specification:
empty credential, light theme, default accent. -/
def cfgNoKey : Config := ⟨"", "light", "#3498db"⟩


theorem lastIsUser_concat (h : List Turn) (t : Turn) :
    lastIsUser (h ++ [t]) = (t.role == "user") := by
  induction h with
  | nil => rfl
  | cons a h ih =>
    cases h with
    | nil => rfl
    | cons b h2 => simpa [lastIsUser] using ih

theorem noConsecUser_concat (h : List Turn) (t : Turn) :
    noConsecUser (h ++ [t]) =
      (noConsecUser h && (!(lastIsUser h) || !(t.role == "user"))) := by
  induction h with
  | nil => rfl
  | cons a h ih =>
    cases h with
    | nil => simp [noConsecUser, lastIsUser]
    | cons b h2 =>
      simp only [List.cons_append] at ih ⊢
      simp only [noConsecUser, lastIsUser, ih, Bool.and_assoc]

theorem noConsecUser_dropLast (h : List Turn) (hc : noConsecUser h = true) :
    noConsecUser h.dropLast = true := by
  induction h with
  | nil => exact hc
  | cons a h ih =>
    cases h with
    | nil => rfl
    | cons b h2 =>
      simp only [noConsecUser, Bool.and_eq_true] at hc
      cases h2 with
      | nil => rfl
      | cons c h3 =>
        have hrec := ih hc.2
        simp only [List.dropLast] at hrec ⊢
        simp only [noConsecUser, Bool.and_eq_true]
        exact ⟨hc.1, hrec⟩

theorem lastIsUser_dropLast (h : List Turn) (hc : noConsecUser h = true)
    (hl : lastIsUser h = true) : lastIsUser h.dropLast = false := by
  induction h with
  | nil => exact absurd hl (by simp [lastIsUser])
  | cons a h ih =>
    cases h with
    | nil => rfl
    | cons b h2 =>
      simp only [noConsecUser, Bool.and_eq_true] at hc
      have hl2 : lastIsUser (b :: h2) = true := hl
      cases h2 with
      | nil =>
        have hb : (b.role == "user") = true := hl2
        have h1 := hc.1
        rw [hb, Bool.and_true, Bool.not_eq_true'] at h1
        show (a.role == "user") = false
        exact h1
      | cons c h3 =>
        have hrec := ih hc.2 hl2
        simp only [List.dropLast] at hrec ⊢
        exact hrec

/-- The strengthened invariant: no two consecutive User turns, and while no
dispatch is outstanding the transcript does not end with a User turn. -/
def SysInv (s : SysState) : Prop :=
  noConsecUser s.win.chat_history = true ∧
    (s.inFlight = false → lastIsUser s.win.chat_history = false)

theorem send_message_hist (cfg : Config) (googleAvailable : Bool) (inputText : String)
    (st : ChatWindowState) :
    ((send_message cfg googleAvailable inputText st).1.chat_history = st.chat_history ∧
      (send_message cfg googleAvailable inputText st).2.1 = none) ∨
    ((send_message cfg googleAvailable inputText st).1.chat_history =
        st.chat_history ++ [⟨"user", [pyStrip inputText]⟩] ∧
      ((send_message cfg googleAvailable inputText st).2.1).isSome = true) := by
  by_cases h1 : pyStrip inputText = ""
  · exact Or.inl (by constructor <;> simp [send_message, h1])
  · by_cases h2 : cfg.api_key = ""
    · exact Or.inl (by constructor <;> simp [send_message, h1, h2])
    · by_cases h3 : googleAvailable = false
      · exact Or.inl (by constructor <;> simp [send_message, h1, h2, h3])
      · exact Or.inr (by constructor <;> simp [send_message, h1, h2, h3])

theorem sysInv_step {s s' : SysState} (hs : SysInv s) (hstep : UiStep s s') : SysInv s' := by
  cases hstep with
  | send cfg googleAvailable inputText s hfree =>
    rcases send_message_hist cfg googleAvailable inputText s.win with ⟨he, hn⟩ | ⟨he, hsome⟩
    · refine ⟨by rw [he]; exact hs.1, ?_⟩
      intro _
      rw [he]
      exact hs.2 hfree
    · refine ⟨?_, ?_⟩
      · rw [he, noConsecUser_concat, hs.1, hs.2 hfree]
        rfl
      · intro hfl
        have hfl' : ((send_message cfg googleAvailable inputText s.win).2.1).isSome = false := hfl
        rw [hsome] at hfl'
        exact Bool.noConfusion hfl'
  | success text s hbusy =>
    refine ⟨?_, ?_⟩
    · show noConsecUser (s.win.chat_history ++ [⟨"model", [text]⟩]) = true
      rw [noConsecUser_concat, hs.1]
      simp [show (("model" : String) == "user") = false from by decide]
    · intro _
      show lastIsUser (s.win.chat_history ++ [⟨"model", [text]⟩]) = false
      rw [lastIsUser_concat]
      rfl
  | failure msg s hbusy =>
    have hist_eq : ((handle_error s.win msg).1).chat_history =
        (if lastIsUser s.win.chat_history then s.win.chat_history.dropLast
          else s.win.chat_history) := rfl
    refine ⟨?_, ?_⟩
    · rw [hist_eq]
      split
      · exact noConsecUser_dropLast _ hs.1
      · exact hs.1
    · intro _
      rw [hist_eq]
      split
      next hl => exact lastIsUser_dropLast _ hs.1 hl
      next hl => simpa using hl
  | reset cfg googleAvailable s => exact ⟨rfl, fun _ => rfl⟩

theorem sysInv_of_reachable {s : SysState} (h : Reachable s) : SysInv s := by
  induction h with
  | init cfg googleAvailable => exact ⟨rfl, fun _ => rfl⟩
  | step _ hstep ih => exact sysInv_step ih hstep

/-- Claim C10: for every input string that is empty or consists only of
whitespace, invoking the send operation leaves the transcript unchanged,
starts no dispatch, and shows no notification — the submission is silently
ignored (src lines 439-440). -/
theorem c10_blank_input (cfg : Config) (googleAvailable : Bool) (inputText : String)
    (st : ChatWindowState) (hblank : pyStrip inputText = "") :
    send_message cfg googleAvailable inputText st = (st, none, none) := by
  simp [send_message, hblank]

/-- Witness for C10 at the all-whitespace input. -/
theorem c10_blank_input_witness :
    pyStrip "   " = "" ∧ send_message cfg0 true "   " win0 = (win0, none, none) :=
  ⟨by decide, c10_blank_input cfg0 true "   " win0 (by decide)⟩

/-- Claim C2: a submission with an empty api_key dispatches nothing (the
worker option is none, so no network call is made), leaves the transcript
unchanged, and shows the missing-credential notification with no hide timer
scheduled (it is persistent). Moreover the worker guard itself, reached with
an empty key, reports the unconfigured error for EVERY call outcome, i.e.
without consulting the network at all. -/
theorem c2_unconfigured (cfg : Config) (googleAvailable : Bool) (inputText : String)
    (st : ChatWindowState) (outcome : CallOutcome)
    (hkey : cfg.api_key = "") (hmsg : pyStrip inputText ≠ "") :
    send_message cfg googleAvailable inputText st =
      ({ st with status := ⟨"Error: API Key not set...", true, true⟩ }, none, none) ∧
    workerRun true "" outcome =
      .error "API Key not set. Please configure it in Settings." := by
  constructor
  · simp only [send_message]
    rw [if_neg hmsg, if_pos hkey]
    rfl
  · rfl

/-- Witness for C2: the end-to-end example of the specification, with the
empty-credential configuration and the message "hello". -/
theorem c2_unconfigured_witness :
    send_message cfgNoKey true "hello" win0 =
      ({ win0 with status := ⟨"Error: API Key not set...", true, true⟩ }, none, none) ∧
    workerRun true "" (.returned none) =
      .error "API Key not set. Please configure it in Settings." :=
  c2_unconfigured cfgNoKey true "hello" win0 (.returned none) rfl (by decide)

/-- Claim C5: a successful dispatch appends exactly one Model turn holding
the returned text, and the whole previous transcript — in particular the
just-appended User turn — is retained unchanged as a prefix. -/
theorem c5_success_appends_model (st : ChatWindowState) (ai_message : String) :
    (handle_response st ai_message).chat_history =
      st.chat_history ++ [⟨"model", [ai_message]⟩] ∧
    st.chat_history <+: (handle_response st ai_message).chat_history :=
  ⟨rfl, ⟨[⟨"model", [ai_message]⟩], rfl⟩⟩

/-- Claim C3: a failed dispatch removes exactly the most recently appended
User turn and no other turn — on a transcript of shape `prior ++ [user turn]`
the error handler returns exactly `prior`. -/
theorem c3_failure_retracts (st : ChatWindowState) (hprev : List Turn) (t : Turn)
    (msg : String) (hh : st.chat_history = hprev ++ [t]) (hu : t.role = "user") :
    ((handle_error st msg).1).chat_history = hprev := by
  have hl : lastIsUser st.chat_history = true := by
    rw [hh, lastIsUser_concat, hu]
    decide
  show (if lastIsUser st.chat_history then st.chat_history.dropLast
    else st.chat_history) = hprev
  rw [hl]
  simp [hh, List.dropLast_concat]

/-- Witness for C3 on a one-turn transcript. -/
theorem c3_failure_retracts_witness :
    ((handle_error ⟨[⟨"user", ["hi"]⟩], ss0⟩ "boom").1).chat_history = [] :=
  c3_failure_retracts ⟨[⟨"user", ["hi"]⟩], ss0⟩ [] ⟨"user", ["hi"]⟩ "boom" rfl rfl

/-- Counterexample to claim C1 as stated: a submission made with an EMPTY
prior transcript. Because send_message appends the User turn to chat_history
before constructing the worker (src lines 448-449), the history handed to
the dispatcher is `[the current message]`, so the dispatcher issues a
multi-turn call — not the single-turn call the claim requires — and the
current message IS part of the seeded history. -/
theorem c1_counterexample :
    win0.chat_history = [] ∧
    (send_message cfg0 true "hello" win0).2.1 =
      some ⟨"k", "hello", [⟨"user", ["hello"]⟩]⟩ ∧
    workerCall [⟨"user", ["hello"]⟩] "hello" =
      .multiTurn [⟨"user", ["hello"]⟩] "hello" ∧
    ApiCall.multiTurn [⟨"user", ["hello"]⟩] "hello" ≠ ApiCall.singleTurn "hello" := by
  decide

/-- Claim C1, amended: for every submission that passes the guards, the
transcript handed to the dispatcher is the prior transcript with the current
User turn already appended, hence it is never empty and the dispatcher
always issues a multi-turn completion call seeded with exactly that handed
transcript in order, whose final turn is the current message. -/
theorem c1_amended (cfg : Config) (inputText : String) (st : ChatWindowState)
    (hmsg : pyStrip inputText ≠ "") (hkey : cfg.api_key ≠ "") :
    (send_message cfg true inputText st).2.1 =
      some ⟨cfg.api_key, pyStrip inputText,
        st.chat_history ++ [⟨"user", [pyStrip inputText]⟩]⟩ ∧
    workerCall (st.chat_history ++ [⟨"user", [pyStrip inputText]⟩]) (pyStrip inputText) =
      .multiTurn (st.chat_history ++ [⟨"user", [pyStrip inputText]⟩]) (pyStrip inputText) := by
  constructor
  · simp only [send_message]
    rw [if_neg hmsg, if_neg hkey]
    rfl
  · cases st.chat_history with
    | nil => rfl
    | cons a l => rfl

/-- Witness for the amended C1 at a concrete submission. -/
theorem c1_amended_witness :
    (send_message cfg0 true "hello" win0).2.1 =
      some ⟨"k", "hello", [⟨"user", ["hello"]⟩]⟩ ∧
    workerCall [⟨"user", ["hello"]⟩] "hello" =
      .multiTurn [⟨"user", ["hello"]⟩] "hello" :=
  c1_amended cfg0 "hello" win0 (by decide) (by decide)

/-- Claim C4: in every state reachable through the send / success / failure
/ reset operations — with new submissions possible only while none is in
flight — the transcript never contains two consecutive User turns. -/
theorem c4_no_consecutive_users (s : SysState) (h : Reachable s) :
    noConsecUser s.win.chat_history = true :=
  (sysInv_of_reachable h).1

/-- Witness for C4 at the reachable state produced by one dispatched send. -/
theorem c4_no_consecutive_users_witness :
    noConsecUser [⟨"user", ["hi"]⟩] = true :=
  c4_no_consecutive_users
    ⟨⟨[⟨"user", ["hi"]⟩], ⟨"AI is thinking...", false, true⟩⟩, true⟩
    (Reachable.step (Reachable.init cfg0 true)
      (UiStep.send cfg0 true "hi" ⟨⟨[], ss0⟩, false⟩ rfl))

/-- Claim C7: the exception classifier maps the text of the raised exception
to the taxonomy in the stated substring precedence — invalid credential,
then quota, then deadline, then permission, then unknown model, else
Unknown(message) — each rendered as its fixed emitted message. Totality of
classifyException embeds that no exception escapes the handler. -/
theorem c7_exception_taxonomy (e : String) :
    classifyException e = kindMessage (specClassifyException e) := by
  unfold classifyException specClassifyException
  split_ifs <;> rfl

/-- A response whose direct text raises, whose first candidate has one part
without a text attribute, and which carries a block reason. -/
def rX : Option Response := some ⟨none, [⟨[⟨false, "ignored"⟩]⟩], some "SAFETY"⟩

/-- Counterexample to claim C6 as stated: on a response whose candidate
content parts are present but yield no text fragments, the code reports the
no-text failure immediately — it neither returns Success with the (empty)
concatenation as step (b) of the claim reads, nor falls through to the
block reason the response carries, as the (b)-then-(c) order requires. -/
theorem c6_counterexample :
    interpretResponse rX = .error "API response candidate parts contained no text." ∧
    specInterpretC6 rX = .success "" ∧
    WorkerEvent.error "API response candidate parts contained no text." ≠
      WorkerEvent.response "" ∧
    blockReasonOf rX = some "SAFETY" := by
  decide

/-- Claim C6, amended: the interpretation order is (a) direct text value
gives Success; (b) otherwise candidate content parts, when present, give
Success with the concatenation of the text fragments if that concatenation
is non-empty, and the no-text empty failure immediately otherwise, without
consulting the block reason; (c) otherwise a block reason gives
Failure(Blocked(reason)); (d) otherwise Failure(EmptyResponse). -/
theorem c6_amended (r? : Option Response) :
    interpretResponse r? = specInterpretAmendedC6 r? := by
  cases r? with
  | none => rfl
  | some r =>
    rcases r with ⟨tv, cands, br⟩
    cases tv with
    | some t => rfl
    | none =>
      cases cands with
      | nil => cases br <;> rfl
      | cons c rest =>
        rcases c with ⟨ps⟩
        cases ps with
        | nil => cases br <;> rfl
        | cons p ps2 => rfl

/-- Counterexample to claim C9 as stated: the DependencyMissing notification
raised by send_message (src line 443) does NOT carry either persistence
marker, so show_status_message schedules a hide timer for it at the default
5000 ms, and the fired timer callback hides it — a DependencyMissing
notification that auto-expires. -/
theorem c9_counterexample :
    (send_message cfg0 false "hello" win0).2.2 =
      some ⟨5000, "Error: Google AI library not installed."⟩ ∧
    (send_message cfg0 false "hello" win0).1.status =
      ⟨"Error: Google AI library not installed.", true, true⟩ ∧
    hide_specific_status_message ⟨"Error: Google AI library not installed.", true, true⟩
        "Error: Google AI library not installed." =
      ⟨"Error: Google AI library not installed.", true, false⟩ := by
  decide

/-- Claim C9, amended: a shown notification is persistent — no hide timer is
scheduled — exactly when its duration is 0 or its text contains one of the
marker substrings "API Key not set" or "google-generativeai not found".
Consequently the Unconfigured notifications and the config-check
DependencyMissing notification are persistent, while the send-path
DependencyMissing notification and transient failures such as a timeout are
scheduled to auto-expire after the default 5000 ms. -/
theorem c9_amended :
    (∀ (old : StatusState) (message : String) (isErr : Bool) (duration : Nat),
      ((show_status_message old message isErr duration).2 = none ↔
        (duration = 0 ∨ containsSubstr message "API Key not set" = true ∨
          containsSubstr message "google-generativeai not found" = true))) ∧
    (show_status_message ss0 "Error: API Key not set..." true 5000).2 = none ∧
    (update_status_based_on_config false cfg0 ss0).2 = none ∧
    (update_status_based_on_config true cfgNoKey ss0).2 = none ∧
    (send_message cfg0 false "hello" win0).2.2 =
      some ⟨5000, "Error: Google AI library not installed."⟩ ∧
    (handle_error win0 "API Error: Request timed out. Please try again.").2 =
      some ⟨5000, "API Error: Request timed out. Please try again."⟩ := by
  refine ⟨?_, by decide, by decide, by decide, by decide, by decide⟩
  intro old message isErr duration
  simp only [show_status_message]
  split
  next hp =>
    simp only [Bool.or_eq_true, beq_iff_eq, or_assoc] at hp
    exact iff_of_true rfl hp
  next hp =>
    simp only [Bool.or_eq_true, beq_iff_eq, or_assoc] at hp
    exact iff_of_false (by simp) hp

/-- Claim C8 is right and the code is wrong: on a stored configuration whose
accent-color string is invalid, load_config KEEPS the invalid string instead
of reverting it to the default. The revert branch is the except arm of
`try: QColor(...)`, but constructing a QColor from a string never raises, so
that arm — whose own warning message documents the intended revert — is
unreachable for string values. This theorem evaluates the code at the
failing input: the accent color returned is the stored invalid string, which
fails the validity check and differs from the default. -/
theorem c8_invalid_color_kept :
    load_config (some ⟨some "k", some "dark", some "#zzzzzz"⟩) =
      ⟨"k", "dark", "#zzzzzz"⟩ ∧
    isValidColorName "#zzzzzz" = false ∧
    ("#zzzzzz" : String) ≠ DEFAULT_CONFIG.accent_color ∧
    isValidColorName DEFAULT_CONFIG.accent_color = true := by
  decide
